import Mathlib

/-!
Verification of the payment-case decision logic in
`src/payment-prototype/decision_flow.js`.

JS numbers (`amount`, `time_elapsed_hours`, `system_certainty_score`) are
embedded as rationals; the `status` and `gateway_response` fields are plain
strings, exactly as the JS compares them with `===` against string literals.
-/

/-- Input record, mirroring the documented data shape of the JS file. -/
structure CaseRecord where
  status : String
  gateway_response : String
  amount : ℚ
  currency : String
  debited_from_customer : Bool
  time_elapsed_hours : ℚ
  system_certainty_score : ℚ
  deriving Repr, DecidableEq

/-- Output of `analyzeCase`: a decision tag and a human-readable reason. -/
structure Decision where
  decision : String
  reason : String
  deriving Repr, DecidableEq

/-- The `RULES` configuration constants of the JS file. -/
structure RulesConfig where
  HIGH_VALUE_THRESHOLD : ℚ
  AUTO_REVERSAL_WINDOW_HOURS : ℚ
  CERTAINTY_THRESHOLD : ℚ
  deriving Repr, DecidableEq

/-- The constant `RULES` object: threshold 5000, window 24h, certainty 1.0. -/
def RULES : RulesConfig :=
  { HIGH_VALUE_THRESHOLD := 5000
    AUTO_REVERSAL_WINDOW_HOURS := 24
    CERTAINTY_THRESHOLD := 1 }

/-- Reason string of fail-safe 1 (money in limbo). -/
def limboReason : String :=
  "CRITICAL: Customer debited but transaction marked FAILED. Reconciliation required."

/-- Reason string of fail-safe 2 (high value), interpolating the amount. -/
def highValueReason (amount : ℚ) : String :=
  "RISK: Transaction amount (" ++ toString amount ++
    ") exceeds safety threshold. Human review mandatory."

/-- Reason string of fail-safe 3 (low certainty); the JS typo is kept. -/
def uncertaintyReason : String :=
  "UNCERTIANTY: System cannot definitively verify funds location."

/-- Reason string of the pending WAIT branch, interpolating the window. -/
def waitReason : String :=
  "STANDARD PROCESS: Transaction is pending. Auto-reversal window (" ++
    toString RULES.AUTO_REVERSAL_WINDOW_HOURS ++ "h) active. Advise customer to wait."

/-- Reason string of the pending SLA-breach branch. -/
def slaReason : String :=
  "SLA BREACH: Pending state exceeded auto-reversal window."

/-- Reason string of the default fail-safe. -/
def defaultReason : String :=
  "DEFAULT: Case did not match safe automation attributes."

/-- The `analyzeCase` function of `decision_flow.js`: the ordered rule chain
(limbo, high value, low certainty, pending handling, default). -/
def analyzeCase (data : CaseRecord) : Decision :=
  if data.debited_from_customer ∧ data.status = "FAILED" then
    ⟨"ESCALATE", limboReason⟩
  else if data.amount > RULES.HIGH_VALUE_THRESHOLD then
    ⟨"ESCALATE", highValueReason data.amount⟩
  else if data.system_certainty_score < RULES.CERTAINTY_THRESHOLD then
    ⟨"ESCALATE", uncertaintyReason⟩
  else if data.status = "PENDING" then
    if data.time_elapsed_hours < RULES.AUTO_REVERSAL_WINDOW_HOURS then
      ⟨"WAIT", waitReason⟩
    else
      ⟨"ESCALATE", slaReason⟩
  else
    ⟨"ESCALATE", defaultReason⟩

/-- The tail of the rule chain starting at fail-safe 3 (low certainty): what
`analyzeCase` evaluates once rules 1 and 2 did not fire. -/
def analyzeFromCertainty (data : CaseRecord) : Decision :=
  if data.system_certainty_score < RULES.CERTAINTY_THRESHOLD then
    ⟨"ESCALATE", uncertaintyReason⟩
  else if data.status = "PENDING" then
    if data.time_elapsed_hours < RULES.AUTO_REVERSAL_WINDOW_HOURS then
      ⟨"WAIT", waitReason⟩
    else
      ⟨"ESCALATE", slaReason⟩
  else
    ⟨"ESCALATE", defaultReason⟩

/-- The tail of the rule chain starting at the pending-state scenario: what
`analyzeCase` evaluates once rules 1, 2 and 3 did not fire. -/
def analyzeFromPending (data : CaseRecord) : Decision :=
  if data.status = "PENDING" then
    if data.time_elapsed_hours < RULES.AUTO_REVERSAL_WINDOW_HOURS then
      ⟨"WAIT", waitReason⟩
    else
      ⟨"ESCALATE", slaReason⟩
  else
    ⟨"ESCALATE", defaultReason⟩

/-- State-threading embedding of `analyzeCase`: every return site of the JS
function is paired with the record as the caller sees it afterwards.  The JS
body contains only reads of `data` and no assignment, so each return site
yields `data` itself. -/
def analyzeCaseProc (data : CaseRecord) : Decision × CaseRecord :=
  if data.debited_from_customer ∧ data.status = "FAILED" then
    (⟨"ESCALATE", limboReason⟩, data)
  else if data.amount > RULES.HIGH_VALUE_THRESHOLD then
    (⟨"ESCALATE", highValueReason data.amount⟩, data)
  else if data.system_certainty_score < RULES.CERTAINTY_THRESHOLD then
    (⟨"ESCALATE", uncertaintyReason⟩, data)
  else if data.status = "PENDING" then
    if data.time_elapsed_hours < RULES.AUTO_REVERSAL_WINDOW_HOURS then
      (⟨"WAIT", waitReason⟩, data)
    else
      (⟨"ESCALATE", slaReason⟩, data)
  else
    (⟨"ESCALATE", defaultReason⟩, data)

/-- Modelled from the spec: the single narrow path the spec allows for WAIT
(not in limbo, amount at most the high-value threshold, certainty at least the
certainty threshold, status PENDING, elapsed time strictly inside the
auto-reversal window).  Stated from the spec words, to be compared with the
source function `analyzeCase`. -/
def specWaitPath (data : CaseRecord) : Prop :=
  ¬(data.debited_from_customer ∧ data.status = "FAILED") ∧
    data.amount ≤ RULES.HIGH_VALUE_THRESHOLD ∧
    RULES.CERTAINTY_THRESHOLD ≤ data.system_certainty_score ∧
    data.status = "PENDING" ∧
    data.time_elapsed_hours < RULES.AUTO_REVERSAL_WINDOW_HOURS

instance (data : CaseRecord) : Decidable (specWaitPath data) := by
  unfold specWaitPath
  infer_instance

example :
    analyzeCase
      { status := "PENDING", gateway_response := "TIMEOUT", amount := 150,
        currency := "INR", debited_from_customer := true,
        time_elapsed_hours := 2, system_certainty_score := 1 } =
      ⟨"WAIT", waitReason⟩ := by
  decide

example :
    analyzeCase
      { status := "FAILED", gateway_response := "FAILURE", amount := 4500,
        currency := "INR", debited_from_customer := true,
        time_elapsed_hours := 1/2, system_certainty_score := 1 } =
      ⟨"ESCALATE", limboReason⟩ := by
  decide

example :
    analyzeCase
      { status := "PENDING", gateway_response := "TIMEOUT", amount := 12000,
        currency := "INR", debited_from_customer := true,
        time_elapsed_hours := 1, system_certainty_score := 1 } =
      ⟨"ESCALATE", highValueReason 12000⟩ := by
  decide

/-- C1: the decision is WAIT if and only if the record is not in the limbo
state, its amount is at most the high-value threshold, its certainty score is
at least the certainty threshold, its status is PENDING and its elapsed time
is strictly below the auto-reversal window; every record off this single path
yields ESCALATE. -/
theorem C1_wait_single_path (data : CaseRecord) :
    ((analyzeCase data).decision = "WAIT" ↔ specWaitPath data) ∧
      (¬ specWaitPath data → (analyzeCase data).decision = "ESCALATE") := by
  unfold analyzeCase specWaitPath
  split_ifs with h1 h2 h3 h4 h5 <;> simp_all

/-- C2: a record in the limbo state (debited and FAILED) whose elapsed time is
inside the auto-reversal window — the timing that would qualify for the
pending WAIT branch — still gets ESCALATE with the limbo reason, never WAIT:
rule 1 is evaluated first and dominates the later rules.  (A record's single
status field cannot be both FAILED and PENDING at once, so the pending-wait
condition is represented by its timing component.) -/
theorem C2_limbo_dominates_wait (data : CaseRecord)
    (hdeb : data.debited_from_customer = true)
    (hst : data.status = "FAILED")
    (_ht : data.time_elapsed_hours < RULES.AUTO_REVERSAL_WINDOW_HOURS) :
    analyzeCase data = ⟨"ESCALATE", limboReason⟩ ∧
      (analyzeCase data).decision ≠ "WAIT" := by
  have h1 : data.debited_from_customer ∧ data.status = "FAILED" := ⟨by simp [hdeb], hst⟩
  simp [analyzeCase, h1]

/-- Money Limbo scenario of the JS test harness: status FAILED, amount 4500,
debited, elapsed 0.5h, certainty 1.0. -/
def moneyLimboScenario : CaseRecord :=
  { status := "FAILED", gateway_response := "FAILURE", amount := 4500,
    currency := "INR", debited_from_customer := true,
    time_elapsed_hours := 1/2, system_certainty_score := 1 }

/-- C2 witness: the Money Limbo scenario escalates with the limbo reason even
though its elapsed time (0.5h) is inside the auto-reversal window. -/
theorem C2_limbo_dominates_wait_witness :
    analyzeCase moneyLimboScenario = ⟨"ESCALATE", limboReason⟩ ∧
      (analyzeCase moneyLimboScenario).decision ≠ "WAIT" :=
  C2_limbo_dominates_wait moneyLimboScenario (by decide) (by decide)
    (by norm_num [moneyLimboScenario, RULES])

/-- C3: for a record not matching the limbo rule, an amount exactly equal to
the high-value threshold does not trigger the high-value fail-safe (evaluation
falls through to the later rules), while an amount strictly above it yields
ESCALATE with the high-value reason. -/
theorem C3_high_value_boundary (data : CaseRecord)
    (hlimbo : ¬(data.debited_from_customer ∧ data.status = "FAILED")) :
    (data.amount = RULES.HIGH_VALUE_THRESHOLD →
        analyzeCase data = analyzeFromCertainty data) ∧
      (data.amount > RULES.HIGH_VALUE_THRESHOLD →
        analyzeCase data = ⟨"ESCALATE", highValueReason data.amount⟩) := by
  constructor
  · intro heq
    have h2 : ¬(data.amount > RULES.HIGH_VALUE_THRESHOLD) := by
      rw [heq]
      exact lt_irrefl _
    simp [analyzeCase, analyzeFromCertainty, hlimbo, h2]
  · intro hgt
    simp [analyzeCase, hlimbo, hgt]

/-- Record sitting exactly on the high-value threshold: PENDING, amount 5000,
not debited, certainty 1.0, 2h elapsed. -/
def valueBoundaryCase : CaseRecord :=
  { status := "PENDING", gateway_response := "TIMEOUT", amount := 5000,
    currency := "INR", debited_from_customer := false,
    time_elapsed_hours := 2, system_certainty_score := 1 }

/-- C3 witness: a record with amount exactly 5000 falls through the high-value
fail-safe to the later rules. -/
theorem C3_high_value_boundary_witness :
    analyzeCase valueBoundaryCase = analyzeFromCertainty valueBoundaryCase :=
  (C3_high_value_boundary valueBoundaryCase (by decide)).1 (by decide)

/-- C4: for a record past the limbo and high-value rules, a certainty score
exactly equal to the certainty threshold does not trigger the low-certainty
fail-safe (evaluation falls through to the pending handling), while a score
strictly below it yields ESCALATE with the insufficient-certainty reason. -/
theorem C4_certainty_boundary (data : CaseRecord)
    (hlimbo : ¬(data.debited_from_customer ∧ data.status = "FAILED"))
    (hval : ¬(data.amount > RULES.HIGH_VALUE_THRESHOLD)) :
    (data.system_certainty_score = RULES.CERTAINTY_THRESHOLD →
        analyzeCase data = analyzeFromPending data) ∧
      (data.system_certainty_score < RULES.CERTAINTY_THRESHOLD →
        analyzeCase data = ⟨"ESCALATE", uncertaintyReason⟩) := by
  constructor
  · intro heq
    have h3 : ¬(data.system_certainty_score < RULES.CERTAINTY_THRESHOLD) := by
      rw [heq]
      exact lt_irrefl _
    simp [analyzeCase, analyzeFromPending, hlimbo, hval, h3]
  · intro hlt
    simp [analyzeCase, hlimbo, hval, hlt]

/-- Record sitting exactly on the certainty threshold: PENDING, amount 150,
not debited, certainty 1.0, 2h elapsed. -/
def certaintyBoundaryCase : CaseRecord :=
  { status := "PENDING", gateway_response := "TIMEOUT", amount := 150,
    currency := "INR", debited_from_customer := false,
    time_elapsed_hours := 2, system_certainty_score := 1 }

/-- C4 witness: a record with certainty score exactly 1.0 falls through the
low-certainty fail-safe to the pending handling. -/
theorem C4_certainty_boundary_witness :
    analyzeCase certaintyBoundaryCase = analyzeFromPending certaintyBoundaryCase :=
  (C4_certainty_boundary certaintyBoundaryCase (by decide) (by decide)).1 (by decide)

/-- C5: for a PENDING record that passes the limbo, high-value and certainty
gates, an elapsed time exactly equal to the auto-reversal window is an SLA
breach (ESCALATE with the SLA reason — WAIT requires strictly less), and an
elapsed time strictly below the window yields WAIT. -/
theorem C5_time_boundary (data : CaseRecord)
    (hst : data.status = "PENDING")
    (hval : data.amount ≤ RULES.HIGH_VALUE_THRESHOLD)
    (hcert : RULES.CERTAINTY_THRESHOLD ≤ data.system_certainty_score) :
    (data.time_elapsed_hours = RULES.AUTO_REVERSAL_WINDOW_HOURS →
        analyzeCase data = ⟨"ESCALATE", slaReason⟩) ∧
      (data.time_elapsed_hours < RULES.AUTO_REVERSAL_WINDOW_HOURS →
        analyzeCase data = ⟨"WAIT", waitReason⟩) := by
  have hlimbo : ¬(data.debited_from_customer ∧ data.status = "FAILED") := by
    simp [hst]
  have h2 : ¬(data.amount > RULES.HIGH_VALUE_THRESHOLD) := not_lt.mpr hval
  have h3 : ¬(data.system_certainty_score < RULES.CERTAINTY_THRESHOLD) := not_lt.mpr hcert
  constructor
  · intro heq
    have ht : ¬(data.time_elapsed_hours < RULES.AUTO_REVERSAL_WINDOW_HOURS) := by
      rw [heq]
      exact lt_irrefl _
    simp [analyzeCase, hlimbo, h2, h3, hst, ht]
  · intro hlt
    simp [analyzeCase, hlimbo, h2, h3, hst, hlt]

/-- Record sitting exactly on the auto-reversal window: PENDING, amount 150,
not debited, certainty 1.0, exactly 24h elapsed. -/
def slaBoundaryCase : CaseRecord :=
  { status := "PENDING", gateway_response := "TIMEOUT", amount := 150,
    currency := "INR", debited_from_customer := false,
    time_elapsed_hours := 24, system_certainty_score := 1 }

/-- C5 witness: a PENDING record at exactly 24h elapsed escalates with the
SLA-breach reason. -/
theorem C5_time_boundary_witness :
    analyzeCase slaBoundaryCase = ⟨"ESCALATE", slaReason⟩ :=
  (C5_time_boundary slaBoundaryCase (by decide) (by decide) (by decide)).1 (by decide)

/-- C6: a record that triggers no fail-safe (not debited-and-FAILED, amount at
most the threshold, certainty at least the threshold) and whose status is not
PENDING — in particular status SUCCESS, or any unrecognized status value —
gets the default ESCALATE with the default reason. -/
theorem C6_default_escalate (data : CaseRecord)
    (hlimbo : ¬(data.debited_from_customer ∧ data.status = "FAILED"))
    (hval : data.amount ≤ RULES.HIGH_VALUE_THRESHOLD)
    (hcert : RULES.CERTAINTY_THRESHOLD ≤ data.system_certainty_score)
    (hst : data.status ≠ "PENDING") :
    analyzeCase data = ⟨"ESCALATE", defaultReason⟩ := by
  have h2 : ¬(data.amount > RULES.HIGH_VALUE_THRESHOLD) := not_lt.mpr hval
  have h3 : ¬(data.system_certainty_score < RULES.CERTAINTY_THRESHOLD) := not_lt.mpr hcert
  simp [analyzeCase, hlimbo, h2, h3, hst]

/-- Record with status SUCCESS and no fail-safe triggered: amount 150, not
debited, certainty 1.0. -/
def successCase : CaseRecord :=
  { status := "SUCCESS", gateway_response := "SUCCESS", amount := 150,
    currency := "INR", debited_from_customer := false,
    time_elapsed_hours := 2, system_certainty_score := 1 }

/-- C6 witness: a SUCCESS record that triggers no fail-safe gets the default
ESCALATE. -/
theorem C6_default_escalate_witness :
    analyzeCase successCase = ⟨"ESCALATE", defaultReason⟩ :=
  C6_default_escalate successCase (by decide) (by decide) (by decide) (by decide)

/-- C7: totality — `analyzeCase` is a total function, and every record it is
given yields exactly one Decision whose decision field is WAIT or ESCALATE. -/
theorem C7_totality (data : CaseRecord) :
    (analyzeCase data).decision = "WAIT" ∨ (analyzeCase data).decision = "ESCALATE" := by
  unfold analyzeCase
  split_ifs <;> simp

/-- C8: the state-threading embedding of the JS body returns the input record
unchanged (no mutation) and its decision component is exactly the value of the
pure function `analyzeCase` of that input (determinism: the output is a
function of the record alone). -/
theorem C8_pure_and_deterministic (data : CaseRecord) :
    analyzeCaseProc data = (analyzeCase data, data) := by
  unfold analyzeCaseProc analyzeCase
  split_ifs <;> rfl

/-- C9: the `gateway_response` and `currency` fields never influence the
result — records differing only there get the same decision and reason. -/
theorem C9_gateway_currency_irrelevant (data : CaseRecord) (g c : String) :
    analyzeCase { data with gateway_response := g, currency := c } = analyzeCase data := by
  rfl

/-- C10: no input validation exists — a record with a negative amount, status
PENDING, certainty at least the threshold and elapsed time inside the window
reaches the WAIT automation path (the negative amount silently bypasses the
high-value check; no error result is ever produced). -/
theorem C10_negative_amount_waits (data : CaseRecord)
    (hamt : data.amount < 0)
    (hst : data.status = "PENDING")
    (hcert : RULES.CERTAINTY_THRESHOLD ≤ data.system_certainty_score)
    (ht : data.time_elapsed_hours < RULES.AUTO_REVERSAL_WINDOW_HOURS) :
    analyzeCase data = ⟨"WAIT", waitReason⟩ := by
  have hlimbo : ¬(data.debited_from_customer ∧ data.status = "FAILED") := by
    simp [hst]
  have hle : data.amount ≤ RULES.HIGH_VALUE_THRESHOLD :=
    le_of_lt (hamt.trans_le (by norm_num [RULES]))
  have h2 : ¬(data.amount > RULES.HIGH_VALUE_THRESHOLD) := not_lt.mpr hle
  have h3 : ¬(data.system_certainty_score < RULES.CERTAINTY_THRESHOLD) := not_lt.mpr hcert
  simp [analyzeCase, hlimbo, h2, h3, hst, ht]

/-- Record with a negative amount on the automation path: PENDING, amount
-100, debited, certainty 1.0, 2h elapsed. -/
def negativeAmountCase : CaseRecord :=
  { status := "PENDING", gateway_response := "FAILURE", amount := -100,
    currency := "INR", debited_from_customer := true,
    time_elapsed_hours := 2, system_certainty_score := 1 }

/-- C10 witness: the negative-amount record is silently decided WAIT. -/
theorem C10_negative_amount_waits_witness :
    analyzeCase negativeAmountCase = ⟨"WAIT", waitReason⟩ :=
  C10_negative_amount_waits negativeAmountCase (by norm_num [negativeAmountCase])
    (by decide) (by decide) (by decide)
